import Mathlib

/-!
Shallow embedding of the youtube-backend request handlers (tweet controller,
user/auth controller, subscription controller) over list-based document stores.

Conventions of the embedding:
- A MongoDB collection is a `List` of records; `_id` fields are `ObjectId`
  (string) values except generated subscription-edge ids, which are drawn from
  a `Nat` counter in the store.
- A JS value that may be `undefined` is an `Option`; JS truthiness tests on
  strings are `jsTruthyStr`.
- A handler is a pure function from its request inputs and the store to an
  `Except Failure <response>` together with the store after the operation.
  `Failure.api` is a thrown `ApiError(statusCode, message)`; `Failure.jsTypeError`
  is a raised JS `TypeError` (which the framework surfaces as an internal error,
  not an `ApiError`).
- External collaborators (jwt verification, token signing, the media uploader)
  are function parameters of the handlers that use them, mirroring their
  call-site contracts.
-/

namespace YoutubeBackend

/-- Mongo object ids are modelled as their string representation. -/
abbrev ObjectId := String

/-- `mongoose.isValidObjectId` on a string input: a 24-character hex string. -/
def isValidObjectId (s : String) : Bool :=
  s.length == 24 && s.data.all fun c =>
    c.isDigit || ('a' ≤ c && c ≤ 'f') || ('A' ≤ c && c ≤ 'F')

/-- JS truthiness of a possibly-undefined string: `undefined` and `""` are falsy. -/
def jsTruthyStr : Option String → Bool
  | none => false
  | some s => !(s == "")

/-- JS `String.prototype.trim`: drop leading and trailing whitespace
(structural implementation over the character list). -/
def jsTrim (s : String) : String :=
  ⟨((s.data.dropWhile Char.isWhitespace).reverse.dropWhile Char.isWhitespace).reverse⟩

/-- JS `String.prototype.toLowerCase` (structural implementation over the
character list). -/
def jsToLower (s : String) : String :=
  ⟨s.data.map Char.toLower⟩

/-- Failures a handler can surface: a thrown `ApiError(statusCode, message)`,
or a raised JS `TypeError` (not an `ApiError`). -/
inductive Failure where
  | api (statusCode : Nat) (message : String)
  | jsTypeError (message : String)
  deriving Repr, DecidableEq

/-- A user document (users collection). -/
structure User where
  _id : ObjectId
  username : String
  email : String
  fullName : String
  avatar : String
  coverImage : String
  password : String
  refreshToken : Option String
  watchHistory : List ObjectId
  deriving Repr, DecidableEq

/-- A tweet document (tweets collection). -/
structure Tweet where
  _id : ObjectId
  content : String
  tweetOwner : ObjectId
  createdAt : Nat
  deriving Repr, DecidableEq

/-- A like edge (likes collection); `tweet` is the optional target tweet. -/
structure Like where
  _id : ObjectId
  likedBy : ObjectId
  tweet : Option ObjectId
  deriving Repr, DecidableEq

/-- A subscription edge (subscriptions collection); `_id` is store-generated. -/
structure Subscription where
  _id : Nat
  subscriber : ObjectId
  channel : ObjectId
  deriving Repr, DecidableEq

/-- A video document (videos collection). -/
structure Video where
  _id : ObjectId
  owner : ObjectId
  title : String
  deriving Repr, DecidableEq

/-- Response envelope carrying only statusCode and message (the data payload is
modelled separately where a claim needs it). -/
structure ApiResp where
  statusCode : Nat
  message : String
  deriving Repr, DecidableEq

/-! ## Tweet controller: updateTweet / deleteTweet -/

/-- `updateTweet` handler: validates the id, finds the tweet, checks ownership
(status 404 in the source for the non-owner branch), requires truthy content,
and replaces the content with the trimmed-nonempty content or keeps the
existing one. Returns the response and the tweets collection afterwards. -/
def updateTweet (tweets : List Tweet) (viewerId : ObjectId) (tweetId : String)
    (content : Option String) : Except Failure ApiResp × List Tweet :=
  if !(isValidObjectId tweetId) then
    (.error (.api 400 "Invalid tweet id.."), tweets)
  else
    match tweets.find? (fun t => t._id == tweetId) with
    | none => (.error (.api 404 " Tweet not foun.."), tweets)
    | some tweet =>
      if !(tweet.tweetOwner == viewerId) then
        (.error (.api 404 "You are not authorized to update this tweet.."), tweets)
      else if !(jsTruthyStr content) then
        (.error (.api 404 "Tweet content required.."), tweets)
      else
        let c := content.getD ""
        let updatedContent := if !(jsTrim c == "") then c else tweet.content
        let newTweets := tweets.map fun t =>
          if t._id == tweetId then { t with content := updatedContent } else t
        match newTweets.find? (fun t => t._id == tweetId) with
        | none => (.error (.api 500 "Something went wrong while updating tweet.."), newTweets)
        | some _ => (.ok ⟨200, "Tweet Updated Successfully..."⟩, newTweets)

/-- `deleteTweet` handler: validates the id, finds the tweet, checks ownership
(status 403 in the source for the non-owner branch), and deletes by id. -/
def deleteTweet (tweets : List Tweet) (viewerId : ObjectId) (tweetId : String) :
    Except Failure ApiResp × List Tweet :=
  if !(isValidObjectId tweetId) then
    (.error (.api 400 "Invalid tweet id.."), tweets)
  else
    match tweets.find? (fun t => t._id == tweetId) with
    | none => (.error (.api 404 "Tweet not found.."), tweets)
    | some tweet =>
      if !(tweet.tweetOwner == viewerId) then
        (.error (.api 403 "You are not authorized to delete this tweet.."), tweets)
      else
        let newTweets := tweets.filter fun t => !(t._id == tweetId)
        match tweets.find? (fun t => t._id == tweetId) with
        | none => (.error (.api 500 "Something went wrong while deleting tweet.."), newTweets)
        | some _ => (.ok ⟨200, "Tweet deleted successfully.."⟩, newTweets)

/-! ## Subscription controller: toggleSubscription -/

/-- The subscriptions collection together with the id counter used for
store-generated edge ids. -/
structure SubStore where
  edges : List Subscription
  nextId : Nat
  deriving Repr, DecidableEq

/-- In the source the guard is `if (!isValidObjectId)`: it tests the truthiness
of the `isValidObjectId` function object itself and never applies it to
`channelId`. A JS function value is always truthy. -/
def isValidObjectId_fnTruthy : Bool := true

/-- Response of the toggle handler. -/
inductive ToggleResp where
  | unsubscribed (message : String)
  | subscribed (edge : Subscription) (message : String)
  deriving Repr, DecidableEq

/-- Predicate of the `Subscription.findOne` query in `toggleSubscription`. -/
def subMatches (viewerId channelId : ObjectId) (e : Subscription) : Bool :=
  e.subscriber == viewerId && e.channel == channelId

/-- Body of `toggleSubscription` after the (broken) id-validity guard:
find the edge for (viewer, channel); delete it by its id when present,
otherwise create a fresh edge. -/
def toggleCore (viewerId : ObjectId) (channelId : String) (st : SubStore) :
    Except Failure ToggleResp × SubStore :=
  match st.edges.find? (subMatches viewerId channelId) with
  | some e =>
    (.ok (.unsubscribed "Unscribed from channerl"),
      { st with edges := st.edges.filter fun x => !(x._id == e._id) })
  | none =>
    let newEdge : Subscription := ⟨st.nextId, viewerId, channelId⟩
    (.ok (.subscribed newEdge "Successfully subscribed to channel"),
      ⟨st.edges ++ [newEdge], st.nextId + 1⟩)

/-- `toggleSubscription` handler as written in the source, including the guard
that tests the truthiness of the `isValidObjectId` function itself. -/
def toggleSubscription (viewerId : ObjectId) (channelId : String) (st : SubStore) :
    Except Failure ToggleResp × SubStore :=
  if !isValidObjectId_fnTruthy then
    (.error (.api 400 "Invalid Channel id.."), st)
  else
    toggleCore viewerId channelId st

/-- Whether a subscription edge for (viewer, channel) exists in the store. -/
def edgeExists (st : SubStore) (viewerId channelId : ObjectId) : Bool :=
  (st.edges.find? (subMatches viewerId channelId)).isSome

/-! ## View composer: lookup projections -/

/-- The `{fullName: 1, username: 1, avatar: 1}` projection of a user document
in the owner-enrichment lookups (an inclusion projection keeps `_id`). -/
structure OwnerProj where
  _id : ObjectId
  fullName : String
  username : String
  avatar : String
  deriving Repr, DecidableEq

/-- Apply the owner projection to a user document. -/
def projOwner (u : User) : OwnerProj :=
  ⟨u._id, u.fullName, u.username, u.avatar⟩

/-- The `lookup` of the users collection by `_id`, projected to
`{fullName, username, avatar}`. -/
def ownerLookup (users : List User) (ownerId : ObjectId) : List OwnerProj :=
  (users.filter fun u => u._id == ownerId).map projOwner

/-- The `{likedBy: 1}` projection of a like document. -/
structure LikeProj where
  _id : ObjectId
  likedBy : ObjectId
  deriving Repr, DecidableEq

/-- The `lookup` of the likes collection by target tweet, projected to `{likedBy}`. -/
def likeLookup (likes : List Like) (tweetId : ObjectId) : List LikeProj :=
  (likes.filter fun l => l.tweet == some tweetId).map fun l => ⟨l._id, l.likedBy⟩

/-! ## Tweet controller: getUserTweets -/

/-- Output row of the `getUserTweets` aggregation (its final `project` stage). -/
structure TweetRow where
  _id : ObjectId
  fullName : Option String
  username : Option String
  avatar : Option String
  content : String
  likeCount : Nat
  isLiked : Bool
  createdAt : Nat
  deriving Repr, DecidableEq

/-- One output row of `getUserTweets`: owner lookup collapsed with `first`,
`likeCount` as the size of the like lookup, `isLiked` as membership of the
viewer among the `likedBy` fields. -/
def tweetRow (users : List User) (likes : List Like) (viewerId : ObjectId)
    (t : Tweet) : TweetRow :=
  let ownerDocs := ownerLookup users t.tweetOwner
  let likeDetails := likeLookup likes t._id
  let owner := ownerDocs.head?
  { _id := t._id,
    fullName := owner.map (·.fullName),
    username := owner.map (·.username),
    avatar := owner.map (·.avatar),
    content := t.content,
    likeCount := likeDetails.length,
    isLiked := likeDetails.any fun l => l.likedBy == viewerId,
    createdAt := t.createdAt }

/-- `getUserTweets` aggregation: match the viewer's tweets, then enrich each. -/
def getUserTweets (users : List User) (tweets : List Tweet) (likes : List Like)
    (viewerId : ObjectId) : List TweetRow :=
  (tweets.filter fun t => t.tweetOwner == viewerId).map (tweetRow users likes viewerId)

/-! ## User controller: getUserChannelProfile -/

/-- Output of the channel-profile aggregation's `project` stage. -/
structure ChannelView where
  _id : ObjectId
  fullName : String
  username : String
  subscribersCount : Nat
  channelsSubscribedToCount : Nat
  isSubscribed : Bool
  avatar : String
  coverImage : String
  email : String
  deriving Repr, DecidableEq

/-- The channel view of one matched user document: subscriber/subscribed-to
lookups, their sizes, and the viewer-membership flag. -/
def channelView (subs : List Subscription) (viewerId : ObjectId) (u : User) :
    ChannelView :=
  let subscribers := subs.filter fun s => s.channel == u._id
  let subscribedTo := subs.filter fun s => s.subscriber == u._id
  { _id := u._id,
    fullName := u.fullName,
    username := u.username,
    subscribersCount := subscribers.length,
    channelsSubscribedToCount := subscribedTo.length,
    isSubscribed := subscribers.any fun s => s.subscriber == viewerId,
    avatar := u.avatar,
    coverImage := u.coverImage,
    email := u.email }

/-- `getUserChannelProfile` handler: requires a non-blank username, matches by
lowercased username, errors with 404 on an empty aggregation result, else
returns the first row. -/
def getUserChannelProfile (users : List User) (subs : List Subscription)
    (viewerId : ObjectId) (username : String) : Except Failure ChannelView :=
  if !(jsTruthyStr (some (jsTrim username))) then
    .error (.api 400 "username is missing")
  else
    match (users.filter fun u => u.username == jsToLower username).map
        (channelView subs viewerId) with
    | [] => .error (.api 404 "channel does not exists")
    | c :: _ => .ok c

/-! ## User controller: getWatchHistory -/

/-- A watch-history video after the nested owner-enrichment lookup. -/
structure HistVideo where
  _id : ObjectId
  title : String
  owner : Option OwnerProj
  deriving Repr, DecidableEq

/-- Enrich one video with its owner's projected profile (`first` of the lookup). -/
def histVideo (users : List User) (v : Video) : HistVideo :=
  ⟨v._id, v.title, (ownerLookup users v.owner).head?⟩

/-- `getWatchHistory` aggregation: match the viewer, join the videos referenced
by `watchHistory`, each enriched with its owner's projected profile. `none`
models the JS `TypeError` on `user[0]` when the match stage returns no row. -/
def getWatchHistory (users : List User) (videos : List Video)
    (viewerId : ObjectId) : Option (List HistVideo) :=
  (users.find? fun u => u._id == viewerId).map fun u =>
    (videos.filter fun v => u.watchHistory.contains v._id).map (histVideo users)

/-! ## Subscription controller: getSubscribedChannels -/

/-- An output row of `getSubscribedChannels`: the subscription edge with the
`subscriberInfo` field added by the lookup/addFields stages. -/
structure SubChannelRow where
  _id : Nat
  subscriber : ObjectId
  channel : ObjectId
  subscriberInfo : Option OwnerProj
  deriving Repr, DecidableEq

/-- `getSubscribedChannels` aggregation as written in the source: match edges
whose `subscriber` is the viewer, then look up the users collection on the
`subscriber` field (not the `channel` field) and collapse with `first`. -/
def getSubscribedChannels (users : List User) (subs : List Subscription)
    (viewerId : ObjectId) : List SubChannelRow :=
  (subs.filter fun s => s.subscriber == viewerId).map fun s =>
    ⟨s._id, s.subscriber, s.channel, (ownerLookup users s.subscriber).head?⟩

/-! ## User controller: token lifecycle -/

/-- The identity claim decoded from a verified refresh token. -/
structure DecodedToken where
  _id : ObjectId
  deriving Repr, DecidableEq

/-- Persist a refresh-token value on the user record with the given id. -/
def setRefreshToken (users : List User) (userId : ObjectId)
    (tok : Option String) : List User :=
  users.map fun u => if u._id == userId then { u with refreshToken := tok } else u

/-- `generateAccessAndRefereshTokens`: finds the user, signs an access and a
refresh token (the signing capabilities are the `genAccess`/`genRefresh`
parameters), persists the refresh token, and returns the JS object
`{accessToken, refreshToken}`, modelled as a field-name/value association list
so that property access on a missing key yields `undefined`. Any inner failure
is rethrown as the 500 `ApiError`. -/
def generateAccessAndRefereshTokens (genAccess genRefresh : User → String)
    (userId : ObjectId) (users : List User) :
    Except Failure (List (String × String)) × List User :=
  match users.find? fun u => u._id == userId with
  | none =>
    (.error (.api 500 "Something went wrong while generating referesh and access token"),
      users)
  | some user =>
    let accessToken := genAccess user
    let refreshToken := genRefresh user
    (.ok [("accessToken", accessToken), ("refreshToken", refreshToken)],
      setRefreshToken users userId (some refreshToken))

/-- JS property access on an object modelled as an association list:
a missing key yields `undefined` (`none`). -/
def jsProp (obj : List (String × String)) (key : String) : Option String :=
  (obj.find? fun kv => kv.1 == key).map (·.2)

/-- Response of the refresh-token handler: the two cookies and the JSON body
fields. Both are set from the variables destructured at the call site. -/
structure RefreshResp where
  cookieAccessToken : Option String
  cookieRefreshToken : Option String
  accessToken : Option String
  refreshToken : Option String
  message : String
  deriving Repr, DecidableEq

/-- The `error?.message || "Invalid refresh token"` fallback of the catch block. -/
def failureMessage : Failure → String
  | .api _ m => if m == "" then "Invalid refresh token" else m
  | .jsTypeError m => if m == "" then "Invalid refresh token" else m

/-- Body of the `try` block of `refreshAccessToken`: verify the token, find the
claimed user, compare against the persisted refresh token, then issue a fresh
pair; the call site destructures `{accessToken, newRefreshToken}` from the
returned object, so `newRefreshToken` reads a key the helper never sets. -/
def refreshTryBlock (verify : String → Except String DecodedToken)
    (genAccess genRefresh : User → String) (tok : String) (users : List User) :
    Except Failure RefreshResp × List User :=
  match verify tok with
  | .error m => (.error (.api 401 m), users)
  | .ok decodedToken =>
    match users.find? fun u => u._id == decodedToken._id with
    | none => (.error (.api 401 "Invalid refresh token"), users)
    | some user =>
      if !(some tok == user.refreshToken) then
        (.error (.api 401 "Refresh token is expired or used"), users)
      else
        match generateAccessAndRefereshTokens genAccess genRefresh user._id users with
        | (.error e, users2) => (.error e, users2)
        | (.ok pair, users2) =>
          let accessToken := jsProp pair "accessToken"
          let newRefreshToken := jsProp pair "newRefreshToken"
          (.ok { cookieAccessToken := accessToken,
                 cookieRefreshToken := newRefreshToken,
                 accessToken := accessToken,
                 refreshToken := newRefreshToken,
                 message := "Access token refreshed" }, users2)

/-- `refreshAccessToken` handler: 401 on a missing (falsy) incoming token,
otherwise the `try` block with every failure rethrown by the catch block as a
401 `ApiError` carrying the inner message. -/
def refreshAccessToken (verify : String → Except String DecodedToken)
    (genAccess genRefresh : User → String)
    (incomingRefreshToken : Option String) (users : List User) :
    Except Failure RefreshResp × List User :=
  if !(jsTruthyStr incomingRefreshToken) then
    (.error (.api 401 "unauthorized request"), users)
  else
    match refreshTryBlock verify genAccess genRefresh
        (incomingRefreshToken.getD "") users with
    | (.error f, users2) => (.error (.api 401 (failureMessage f)), users2)
    | okResult => okResult

/-! ## User controller: registerUser -/

/-- The `req.files` object produced by the upload middleware: each field is
either absent or a list of uploaded file paths. -/
structure RegFiles where
  avatar : Option (List String)
  coverImage : Option (List String)
  deriving Repr, DecidableEq

/-- Evaluation of the JS expression `req.files?.avatar[0]?.path`: the optional
chain short-circuits only when `req.files` itself is nullish; when `req.files`
is present but has no `avatar` key, indexing `undefined` raises a `TypeError`. -/
def avatarLocalPathOf (files : Option RegFiles) : Except Failure (Option String) :=
  match files with
  | none => .ok none
  | some fs =>
    match fs.avatar with
    | none => .error (.jsTypeError "Cannot read properties of undefined (reading 0)")
    | some paths => .ok paths.head?

/-- Evaluation of the guarded cover-image path extraction
(`req.files && Array.isArray(req.files.coverImage) && req.files.coverImage.length > 0`). -/
def coverImageLocalPathOf (files : Option RegFiles) : Option String :=
  match files with
  | some fs =>
    match fs.coverImage with
    | some (p :: _) => some p
    | _ => none
  | none => none

/-- The body fields and files of a registration request. -/
structure RegInput where
  fullName : Option String
  email : Option String
  username : Option String
  password : Option String
  files : Option RegFiles
  deriving Repr, DecidableEq

/-- The per-field test `field?.trim() === ""` of the registration validation
(false for an `undefined` field, since `undefined === ""` is false). -/
def trimBlank : Option String → Bool
  | none => false
  | some s => jsTrim s == ""

/-- Success response of `registerUser`. -/
structure RegResp where
  statusCode : Nat
  createdUser : User
  message : String
  deriving Repr, DecidableEq

/-- `registerUser` handler: blank-field check, username/email conflict check,
avatar/cover path extraction (with the `TypeError` of the unguarded index),
uploads via the `upload` capability, then user creation. `freshId` is the id
the store assigns to the created document. -/
def registerUser (upload : String → Option String) (freshId : ObjectId)
    (inp : RegInput) (users : List User) : Except Failure RegResp × List User :=
  if [inp.fullName, inp.email, inp.username, inp.password].any trimBlank then
    (.error (.api 400 "All fields are required"), users)
  else
    match users.find? fun u =>
        some u.username == inp.username || some u.email == inp.email with
    | some _ => (.error (.api 409 "User with email or username already exists"), users)
    | none =>
      match avatarLocalPathOf inp.files with
      | .error e => (.error e, users)
      | .ok avatarLocalPath =>
        let coverImageLocalPath := coverImageLocalPathOf inp.files
        if !(jsTruthyStr avatarLocalPath) then
          (.error (.api 400 "Avatar file is required"), users)
        else
          match avatarLocalPath.bind upload with
          | none => (.error (.api 400 "Avatar file is required"), users)
          | some avatarUrl =>
            let coverUrl := (coverImageLocalPath.bind upload).getD ""
            let newUser : User :=
              { _id := freshId,
                username := jsToLower (inp.username.getD ""),
                email := inp.email.getD "",
                fullName := inp.fullName.getD "",
                avatar := avatarUrl,
                coverImage := coverUrl,
                password := inp.password.getD "",
                refreshToken := none,
                watchHistory := [] }
            let users2 := users ++ [newUser]
            match users2.find? fun u => u._id == freshId with
            | none =>
              (.error (.api 500 "Something went wrong while registering the user"), users2)
            | some createdUser =>
              (.ok ⟨201, createdUser, "User registered Successfully"⟩, users2)

/-! ## Credential-equivalence relation for the noninterference claim -/

/-- Two user documents that agree on every field except possibly the password,
the persisted refresh token, and the email. -/
def credEquivUser (u v : User) : Bool :=
  u._id == v._id && u.username == v.username && u.fullName == v.fullName &&
    u.avatar == v.avatar && u.coverImage == v.coverImage &&
    u.watchHistory == v.watchHistory

/-- Pointwise `credEquivUser` on user collections. -/
def credEquivUsers : List User → List User → Bool
  | [], [] => true
  | u :: l, v :: m => credEquivUser u v && credEquivUsers l m
  | _, _ => false

/-- `credEquivUser` lifted to the optional result of a `find?`. -/
def credEquivOption : Option User → Option User → Bool
  | none, none => true
  | some u, some v => credEquivUser u v
  | _, _ => false

/-! ## Helper lemmas -/

/-- When a list holds at most one element satisfying `P`, every member
satisfying `P` is the one `find?` returns. -/
theorem find?_countP_unique {α : Type} {P : α → Bool} :
    ∀ {l : List α} {e : α}, l.find? P = some e → l.countP P ≤ 1 →
      ∀ x ∈ l, P x = true → x = e := by
  intro l
  induction l with
  | nil => intro e h; simp at h
  | cons a t ih =>
    intro e hfind hcount x hx hPx
    by_cases ha : P a = true
    · rw [List.find?_cons_of_pos _ ha] at hfind
      injection hfind with he
      subst he
      rw [List.countP_cons_of_pos _ _ ha] at hcount
      have ht : t.countP P = 0 := by omega
      rw [List.countP_eq_zero] at ht
      rcases List.mem_cons.mp hx with rfl | hxt
      · rfl
      · exact absurd hPx (by simpa using ht x hxt)
    · rw [List.find?_cons_of_neg _ ha] at hfind
      rw [List.countP_cons_of_neg _ _ ha] at hcount
      rcases List.mem_cons.mp hx with rfl | hxt
      · exact absurd hPx ha
      · exact ih hfind hcount x hxt hPx

/-- Credential-equivalent users agree on id, username, fullName, avatar,
coverImage, and watchHistory. -/
theorem credEquivUser_fields {u v : User} (h : credEquivUser u v = true) :
    u._id = v._id ∧ u.username = v.username ∧ u.fullName = v.fullName ∧
      u.avatar = v.avatar ∧ u.coverImage = v.coverImage ∧
      u.watchHistory = v.watchHistory := by
  simp only [credEquivUser, Bool.and_eq_true, beq_iff_eq] at h
  tauto

/-- The owner-enrichment lookup is invariant under credential changes. -/
theorem ownerLookup_credEquiv : ∀ {l m : List User}, credEquivUsers l m = true →
    ∀ x, ownerLookup l x = ownerLookup m x := by
  intro l
  induction l with
  | nil =>
    intro m h x
    cases m with
    | nil => rfl
    | cons v s => simp [credEquivUsers] at h
  | cons u t ih =>
    intro m h x
    cases m with
    | nil => simp [credEquivUsers] at h
    | cons v s =>
      simp only [credEquivUsers, Bool.and_eq_true] at h
      obtain ⟨h1, hrest⟩ := h
      obtain ⟨hid, hun, hfn, hav, hcv, hwh⟩ := credEquivUser_fields h1
      simp only [ownerLookup, List.filter_cons]
      rw [hid]
      by_cases hx : (v._id == x) = true
      · rw [if_pos hx, if_pos hx]
        simp only [List.map_cons]
        have hih := ih hrest x
        simp only [ownerLookup] at hih
        rw [hih]
        congr 1
        simp [projOwner, hid, hun, hfn, hav]
      · rw [if_neg hx, if_neg hx]
        have hih := ih hrest x
        simpa [ownerLookup] using hih

/-- `find?` by id returns credential-equivalent results on
credential-equivalent user collections. -/
theorem find?_credEquiv : ∀ {l m : List User}, credEquivUsers l m = true →
    ∀ x, credEquivOption (l.find? fun u => u._id == x)
      (m.find? fun u => u._id == x) = true := by
  intro l
  induction l with
  | nil =>
    intro m h x
    cases m with
    | nil => rfl
    | cons v s => simp [credEquivUsers] at h
  | cons u t ih =>
    intro m h x
    cases m with
    | nil => simp [credEquivUsers] at h
    | cons v s =>
      simp only [credEquivUsers, Bool.and_eq_true] at h
      obtain ⟨h1, hrest⟩ := h
      obtain ⟨hid, hun, hfn, hav, hcv, hwh⟩ := credEquivUser_fields h1
      simp only [List.find?_cons]
      rw [hid]
      by_cases hx : (v._id == x) = true
      · rw [hx]
        exact h1
      · have hx2 : (v._id == x) = false := by simpa using hx
        rw [hx2]
        exact ih hrest x

/-! ## Claim theorems -/

/-- C1: for every rotate request where the presented refresh token verifies and
the claimed user exists but the token differs from the refresh-token value
persisted on that user's record, `refreshAccessToken` fails with a 401
Unauthorized error and the user store is unchanged, so no new token pair is
issued or persisted, regardless of the token's prior validity. -/
theorem refresh_stale_token_unauthorized (verify : String → Except String DecodedToken)
    (genAccess genRefresh : User → String) (tok : String) (users : List User)
    (d : DecodedToken) (user : User)
    (hverify : verify tok = .ok d)
    (hfind : users.find? (fun u => u._id == d._id) = some user)
    (hmismatch : (some tok == user.refreshToken) = false) :
    ∃ msg, refreshAccessToken verify genAccess genRefresh (some tok) users =
      (.error (.api 401 msg), users) := by
  by_cases htok : tok = ""
  · exact ⟨"unauthorized request", by subst htok; rfl⟩
  · refine ⟨"Refresh token is expired or used", ?_⟩
    have h1 : jsTruthyStr (some tok) = true := by
      simp [jsTruthyStr, htok]
    unfold refreshAccessToken
    rw [h1]
    have h2 : refreshTryBlock verify genAccess genRefresh tok users =
        (.error (.api 401 "Refresh token is expired or used"), users) := by
      unfold refreshTryBlock
      simp only [hverify, hfind, hmismatch]
      rfl
    simp only [Option.getD_some, h2]
    rfl

/-- C1 witness: a user whose persisted refresh token is `"CURRENT"` rotated
with the still-verifying old token `"OLD"` gets a 401 and an unchanged store. -/
theorem refresh_stale_token_unauthorized_wit :
    ∃ msg, refreshAccessToken
        (fun t => if t == "OLD" then .ok ⟨"u1"⟩ else .error "invalid token")
        (fun _ => "A") (fun _ => "R") (some "OLD")
        [⟨"u1", "ada", "ada@x.com", "Ada", "av", "cv", "pw", some "CURRENT", []⟩] =
      (.error (.api 401 msg),
        [⟨"u1", "ada", "ada@x.com", "Ada", "av", "cv", "pw", some "CURRENT", []⟩]) :=
  refresh_stale_token_unauthorized _ _ _ "OLD" _ ⟨"u1"⟩
    ⟨"u1", "ada", "ada@x.com", "Ada", "av", "cv", "pw", some "CURRENT", []⟩ rfl rfl rfl

/-- C2: at a successful rotation the handler issues a fresh pair and persists
the new refresh token (`"RT2"`) on the user record, but both the JSON payload
and the transport cookie carry `none` for the refresh token, because the call
site destructures the key `newRefreshToken` that the helper never sets (it
returns the pair under the key `refreshToken`). -/
theorem refresh_rotation_payload_missing_token :
    refreshAccessToken
        (fun t => if t == "RT1" then .ok ⟨"u1"⟩ else .error "invalid token")
        (fun _ => "AT2") (fun _ => "RT2") (some "RT1")
        [⟨"u1", "ada", "ada@x.com", "Ada", "av", "cv", "pw", some "RT1", []⟩] =
      (.ok ⟨some "AT2", none, some "AT2", none, "Access token refreshed"⟩,
        [⟨"u1", "ada", "ada@x.com", "Ada", "av", "cv", "pw", some "RT2", []⟩]) := rfl

/-- C3: at a concrete non-owner update and delete attempt the stored tweet
collection is unmodified in both cases, and the delete fails with 403
Forbidden, but the update fails with statusCode 404 (carrying an authorization
message), not 403 as the claim states. -/
theorem nonowner_update_delete_status :
    updateTweet [⟨"aaaaaaaaaaaaaaaaaaaaaaaa", "hello", "u1", 0⟩] "u2"
        "aaaaaaaaaaaaaaaaaaaaaaaa" (some "new content") =
      (.error (.api 404 "You are not authorized to update this tweet.."),
        [⟨"aaaaaaaaaaaaaaaaaaaaaaaa", "hello", "u1", 0⟩]) ∧
    deleteTweet [⟨"aaaaaaaaaaaaaaaaaaaaaaaa", "hello", "u1", 0⟩] "u2"
        "aaaaaaaaaaaaaaaaaaaaaaaa" =
      (.error (.api 403 "You are not authorized to delete this tweet.."),
        [⟨"aaaaaaaaaaaaaaaaaaaaaaaa", "hello", "u1", 0⟩]) :=
  ⟨rfl, rfl⟩

/-- C4: for every (subscriber, channel) pair and store satisfying the store
invariants (every stored edge id is below the id counter, and at most one edge
exists for the pair), the first toggle flips the edge-existence state and a
second sequential toggle restores it, so toggle composed with toggle is the
identity on edge existence. -/
theorem toggle_toggle_involution (viewerId channelId : ObjectId) (st : SubStore)
    (hfresh : ∀ e ∈ st.edges, e._id < st.nextId)
    (huniq : st.edges.countP (subMatches viewerId channelId) ≤ 1) :
    edgeExists (toggleSubscription viewerId channelId st).2 viewerId channelId
      = !(edgeExists st viewerId channelId) ∧
    edgeExists (toggleSubscription viewerId channelId
        (toggleSubscription viewerId channelId st).2).2 viewerId channelId
      = edgeExists st viewerId channelId := by
  have hguard : ∀ v c s, toggleSubscription v c s = toggleCore v c s := fun _ _ _ => rfl
  simp only [hguard]
  cases hf : st.edges.find? (subMatches viewerId channelId) with
  | none =>
    have hPnew : subMatches viewerId channelId ⟨st.nextId, viewerId, channelId⟩ = true := by
      simp [subMatches]
    have hmid : (toggleCore viewerId channelId st).2 =
        ⟨st.edges ++ [⟨st.nextId, viewerId, channelId⟩], st.nextId + 1⟩ := by
      unfold toggleCore
      rw [hf]
    have hfindmid : (st.edges ++ [(⟨st.nextId, viewerId, channelId⟩ : Subscription)]).find?
        (subMatches viewerId channelId) = some ⟨st.nextId, viewerId, channelId⟩ := by
      rw [List.find?_append, hf]
      simp [hPnew]
    constructor
    · rw [hmid]
      unfold edgeExists
      rw [hfindmid, hf]
      rfl
    · rw [hmid]
      unfold toggleCore
      simp only [hfindmid]
      unfold edgeExists
      have hfilter : (st.edges ++ [(⟨st.nextId, viewerId, channelId⟩ : Subscription)]).filter
          (fun x => !(x._id == st.nextId)) = st.edges := by
        rw [List.filter_append]
        have h1 : st.edges.filter (fun x => !(x._id == st.nextId)) = st.edges := by
          rw [List.filter_eq_self]
          intro a ha
          have := hfresh a ha
          simp only [Bool.not_eq_true']
          exact beq_eq_false_iff_ne.mpr (Nat.ne_of_lt this)
        have h2 : ([(⟨st.nextId, viewerId, channelId⟩ : Subscription)]).filter
            (fun x => !(x._id == st.nextId)) = [] := by simp
        rw [h1, h2, List.append_nil]
      simp only [hfilter]
  | some e =>
    have hP : subMatches viewerId channelId e = true := List.find?_some hf
    have hmid : (toggleCore viewerId channelId st).2 =
        { st with edges := st.edges.filter fun x => !(x._id == e._id) } := by
      unfold toggleCore
      rw [hf]
    have hnone : (st.edges.filter fun x => !(x._id == e._id)).find?
        (subMatches viewerId channelId) = none := by
      rw [List.find?_eq_none]
      intro x hx hPx
      have hx2 := List.mem_filter.mp hx
      have hxe : x = e := find?_countP_unique hf huniq x hx2.1 hPx
      subst hxe
      simpa using hx2.2
    constructor
    · rw [hmid]
      unfold edgeExists
      rw [hnone, hf]
      rfl
    · rw [hmid]
      unfold toggleCore
      simp only [hnone]
      unfold edgeExists
      simp only [List.find?_append, hnone]
      rw [hf]
      simp [subMatches]

/-- C4 witness: starting from a store holding exactly the edge (u1, u2), the
first toggle removes it and the second restores its existence. -/
theorem toggle_toggle_involution_wit :
    edgeExists (toggleSubscription "u1" "u2" ⟨[⟨0, "u1", "u2"⟩], 1⟩).2 "u1" "u2"
      = !(edgeExists ⟨[⟨0, "u1", "u2"⟩], 1⟩ "u1" "u2") ∧
    edgeExists (toggleSubscription "u1" "u2"
        (toggleSubscription "u1" "u2" ⟨[⟨0, "u1", "u2"⟩], 1⟩).2).2 "u1" "u2"
      = edgeExists ⟨[⟨0, "u1", "u2"⟩], 1⟩ "u1" "u2" :=
  toggle_toggle_involution "u1" "u2" ⟨[⟨0, "u1", "u2"⟩], 1⟩ (by decide) (by decide)

/-- C5: every tweet-feed row's likeCount equals the number of stored like
edges targeting that tweet, and its isLiked flag holds iff a like edge by the
exact viewer exists; every channel-profile view's subscribersCount equals the
number of subscription edges whose channel is the profiled user, and its
isSubscribed flag holds iff a subscription edge by the exact viewer exists. -/
theorem view_counts_flags (users : List User) (tweets : List Tweet) (likes : List Like)
    (subs : List Subscription) (viewerId : ObjectId) (uname : String) :
    (∀ row ∈ getUserTweets users tweets likes viewerId,
      row.likeCount = likes.countP (fun l => l.tweet == some row._id) ∧
      (row.isLiked = true ↔ ∃ l ∈ likes, l.tweet = some row._id ∧ l.likedBy = viewerId)) ∧
    (∀ view : ChannelView, getUserChannelProfile users subs viewerId uname = .ok view →
      view.subscribersCount = subs.countP (fun e => e.channel == view._id) ∧
      (view.isSubscribed = true ↔
        ∃ e ∈ subs, e.channel = view._id ∧ e.subscriber = viewerId)) := by
  constructor
  · intro row hrow
    simp only [getUserTweets] at hrow
    obtain ⟨t, ht, rfl⟩ := List.mem_map.mp hrow
    constructor
    · show (tweetRow users likes viewerId t).likeCount = _
      simp only [tweetRow, likeLookup, List.length_map]
      rw [List.countP_eq_length_filter]
    · show (tweetRow users likes viewerId t).isLiked = true ↔ _
      simp only [tweetRow, likeLookup, List.any_eq_true, List.mem_map, List.mem_filter]
      constructor
      · rintro ⟨lp, ⟨l, ⟨hl, hlt⟩, rfl⟩, hlb⟩
        exact ⟨l, hl, by simpa using hlt, by simpa using hlb⟩
      · rintro ⟨l, hl, hlt, hlb⟩
        exact ⟨⟨l._id, l.likedBy⟩, ⟨l, ⟨hl, by simpa using hlt⟩, rfl⟩, by simpa using hlb⟩
  · intro view hview
    unfold getUserChannelProfile at hview
    split at hview
    · simp at hview
    · split at hview
      · simp at hview
      · rename_i heq
        injection hview with hcv
        subst hcv
        rename_i c rest
        have hc : c ∈ (users.filter fun u => u.username == jsToLower uname).map
            (channelView subs viewerId) := by
          rw [heq]
          exact List.mem_cons_self _ _
        obtain ⟨u, hu, hval⟩ := List.mem_map.mp hc
        subst hval
        constructor
        · show (channelView subs viewerId u).subscribersCount = _
          simp only [channelView]
          rw [List.countP_eq_length_filter]
        · show (channelView subs viewerId u).isSubscribed = true ↔ _
          simp only [channelView, List.any_eq_true, List.mem_filter]
          constructor
          · rintro ⟨e2, ⟨he, hch⟩, hsub⟩
            exact ⟨e2, he, by simpa using hch, by simpa using hsub⟩
          · rintro ⟨e2, he, hch, hsub⟩
            exact ⟨e2, ⟨he, by simpa using hch⟩, by simpa using hsub⟩

/-- C5 witness: a single tweet with one like edge by another user yields
likeCount 1 and isLiked false for the owner-viewer; a profile with one
subscription edge from the viewer yields subscribersCount 1 and isSubscribed
true. -/
theorem view_counts_flags_wit :
    ((1 : Nat) = List.countP (fun l => l.tweet == some "t1")
        [(⟨"l1", "v1", some "t1"⟩ : Like)] ∧
      (false = true ↔ ∃ l ∈ [(⟨"l1", "v1", some "t1"⟩ : Like)],
        l.tweet = some "t1" ∧ l.likedBy = "u1")) ∧
    ((1 : Nat) = List.countP (fun e => e.channel == "u1")
        [(⟨0, "u1", "u1"⟩ : Subscription)] ∧
      (true = true ↔ ∃ e ∈ [(⟨0, "u1", "u1"⟩ : Subscription)],
        e.channel = "u1" ∧ e.subscriber = "u1")) :=
  ⟨(view_counts_flags [⟨"u1", "ada", "ada@x.com", "Ada", "av", "cv", "pw", none, []⟩]
      [⟨"t1", "hi", "u1", 7⟩] [⟨"l1", "v1", some "t1"⟩] [⟨0, "u1", "u1"⟩] "u1" "ada").1
      ⟨"t1", some "Ada", some "ada", some "av", "hi", 1, false, 7⟩ (by decide),
   (view_counts_flags [⟨"u1", "ada", "ada@x.com", "Ada", "av", "cv", "pw", none, []⟩]
      [⟨"t1", "hi", "u1", 7⟩] [⟨"l1", "v1", some "t1"⟩] [⟨0, "u1", "u1"⟩] "u1" "ada").2
      ⟨"u1", "Ada", "ada", 1, 1, true, "av", "cv", "ada@x.com"⟩ (by rfl)⟩

/-- C6 counterexample: an owner update whose content is the empty string has
empty trimmed content, yet the handler reports the 404 "Tweet content
required.." error instead of success, refuting the claim for that input. -/
theorem update_empty_content_not_success :
    updateTweet [⟨"aaaaaaaaaaaaaaaaaaaaaaaa", "hello", "u1", 0⟩] "u1"
        "aaaaaaaaaaaaaaaaaaaaaaaa" (some "") =
      (.error (.api 404 "Tweet content required.."),
        [⟨"aaaaaaaaaaaaaaaaaaaaaaaa", "hello", "u1", 0⟩]) := rfl

/-- C6 (amended): for every owner update of an existing tweet (distinct stored
ids) whose new content is non-empty but trims to empty — e.g. whitespace-only —
the stored collection is unchanged and the handler reports success. -/
theorem update_whitespace_only_noop (tweets : List Tweet) (viewerId : ObjectId)
    (tweetId : String) (s : String) (tweet : Tweet)
    (hvalid : isValidObjectId tweetId = true)
    (hfind : tweets.find? (fun t => t._id == tweetId) = some tweet)
    (howner : tweet.tweetOwner = viewerId)
    (hnodup : (tweets.map fun t => t._id).Nodup)
    (hne : s ≠ "") (htrim : jsTrim s = "") :
    updateTweet tweets viewerId tweetId (some s) =
      (.ok ⟨200, "Tweet Updated Successfully..."⟩, tweets) := by
  have hid : tweet._id = tweetId := by
    have := List.find?_some hfind
    simpa using this
  have hmap3 : (tweets.map fun t =>
      if t._id == tweetId then { t with content := tweet.content } else t) = tweets := by
    have hcongr : ∀ t ∈ tweets,
        (if t._id == tweetId then { t with content := tweet.content } else t) = t := by
      intro t ht
      by_cases hcase : (t._id == tweetId) = true
      · have hteq : t = tweet := by
          apply List.inj_on_of_nodup_map hnodup ht (List.mem_of_find?_eq_some hfind)
          show t._id = tweet._id
          have hcase2 : t._id = tweetId := by simpa using hcase
          rw [hcase2, hid]
        rw [if_pos hcase, hteq]
      · rw [if_neg hcase]
    exact (List.map_congr_left hcongr).trans (List.map_id' tweets)
  unfold updateTweet
  split
  · rename_i hg
    rw [hvalid] at hg
    simp at hg
  · split
    · rename_i hfound
      rw [hfind] at hfound
      simp at hfound
    · rename_i t2 hfound2
      rw [hfind] at hfound2
      injection hfound2 with ht2
      subst ht2
      split
      · rename_i hown
        rw [howner, beq_self_eq_true] at hown
        simp at hown
      · split
        · rename_i hct
          rw [show jsTruthyStr (some s) = true from by simp [jsTruthyStr, hne]] at hct
          simp at hct
        · simp only [Option.getD_some]
          rw [htrim]
          rw [if_neg (by decide)]
          rw [hmap3, hfind]

/-- C6 witness: a whitespace-only update by the owner leaves the collection
unchanged and reports success. -/
theorem update_whitespace_only_noop_wit :
    updateTweet [⟨"aaaaaaaaaaaaaaaaaaaaaaaa", "hello", "u1", 0⟩] "u1"
        "aaaaaaaaaaaaaaaaaaaaaaaa" (some "   ") =
      (.ok ⟨200, "Tweet Updated Successfully..."⟩,
        [⟨"aaaaaaaaaaaaaaaaaaaaaaaa", "hello", "u1", 0⟩]) :=
  update_whitespace_only_noop _ _ _ "   " ⟨"aaaaaaaaaaaaaaaaaaaaaaaa", "hello", "u1", 0⟩
    (by decide) rfl rfl (by decide) (by decide) rfl

/-- C7: the tweet feed and the watch history project only fullName, username,
and avatar from owner records: for any two user stores that agree on everything
except passwords, persisted refresh tokens, and emails, both composed outputs
are identical. -/
theorem composer_credential_noninterference (users1 users2 : List User)
    (tweets : List Tweet) (likes : List Like) (videos : List Video)
    (viewerId : ObjectId) (h : credEquivUsers users1 users2 = true) :
    getUserTweets users1 tweets likes viewerId
      = getUserTweets users2 tweets likes viewerId ∧
    getWatchHistory users1 videos viewerId
      = getWatchHistory users2 videos viewerId := by
  constructor
  · unfold getUserTweets
    apply List.map_congr_left
    intro t ht
    unfold tweetRow
    rw [ownerLookup_credEquiv h]
  · unfold getWatchHistory
    have hopt := find?_credEquiv h viewerId
    cases h1 : users1.find? (fun u => u._id == viewerId) with
    | none =>
      cases h2 : users2.find? (fun u => u._id == viewerId) with
      | none => rfl
      | some v =>
        rw [h1, h2] at hopt
        simp [credEquivOption] at hopt
    | some u =>
      cases h2 : users2.find? (fun u => u._id == viewerId) with
      | none =>
        rw [h1, h2] at hopt
        simp [credEquivOption] at hopt
      | some v =>
        rw [h1, h2] at hopt
        have hfields := credEquivUser_fields (by simpa [credEquivOption] using hopt)
        simp only [Option.map_some']
        congr 1
        rw [hfields.2.2.2.2.2]
        apply List.map_congr_left
        intro vid hvid
        unfold histVideo
        rw [ownerLookup_credEquiv h]

/-- C7 witness: two stores whose only user differs in password, email, and
refresh token produce identical tweet-feed and watch-history outputs. -/
theorem composer_credential_noninterference_wit :
    getUserTweets [⟨"u1", "ada", "ada@x.com", "Ada", "av", "cv", "pw1", some "rt1", ["vid1"]⟩]
        [⟨"t1", "hi", "u1", 3⟩] [⟨"l1", "u1", some "t1"⟩] "u1"
      = getUserTweets [⟨"u1", "ada", "other@x.com", "Ada", "av", "cv", "pw2", none, ["vid1"]⟩]
        [⟨"t1", "hi", "u1", 3⟩] [⟨"l1", "u1", some "t1"⟩] "u1" ∧
    getWatchHistory [⟨"u1", "ada", "ada@x.com", "Ada", "av", "cv", "pw1", some "rt1", ["vid1"]⟩]
        [⟨"vid1", "u1", "intro"⟩] "u1"
      = getWatchHistory [⟨"u1", "ada", "other@x.com", "Ada", "av", "cv", "pw2", none, ["vid1"]⟩]
        [⟨"vid1", "u1", "intro"⟩] "u1" :=
  composer_credential_noninterference _ _ _ _ _ _ rfl

/-- C8: at a registration request whose multipart `files` object carries a
cover image but no avatar entry, the unguarded index in
`req.files?.avatar[0]?.path` raises a JS TypeError — not the 400 BadRequest of
the claim — and no user record is created. -/
theorem register_missing_avatar_typeerror :
    registerUser (fun p => some (p ++ ".url")) "u9"
        ⟨some "Ada Lovelace", some "ada@x.com", some "ada", some "secret",
          some ⟨none, some ["cover.png"]⟩⟩ [] =
      (.error (.jsTypeError "Cannot read properties of undefined (reading 0)"), []) := rfl

/-- C9: at a concrete subscribed-channels query, the single row for the
viewer's subscription edge is enriched with the viewer's own (subscriber)
profile, not the profile of the subscribed-to channel, because the lookup joins
on the `subscriber` field. -/
theorem subscribed_channels_wrong_profile :
    getSubscribedChannels
        [⟨"v1", "viewer", "v@x.com", "Viewer", "av-v", "cv-v", "pw", none, []⟩,
          ⟨"c1", "channel", "c@x.com", "Channel", "av-c", "cv-c", "pw", none, []⟩]
        [⟨0, "v1", "c1"⟩] "v1" =
      [⟨0, "v1", "c1", some ⟨"v1", "Viewer", "viewer", "av-v"⟩⟩] := rfl

/-- C10: the invalid-channel-id branch of `toggleSubscription` is unreachable:
for every viewer, channel-id string, and store, the handler equals its
find/create/delete core and never returns the 400 BadRequest error. -/
theorem toggle_invalid_guard_unreachable (viewerId : ObjectId) (channelId : String)
    (st : SubStore) :
    toggleSubscription viewerId channelId st = toggleCore viewerId channelId st ∧
    ∀ msg : String,
      (toggleSubscription viewerId channelId st).1 ≠ .error (.api 400 msg) := by
  constructor
  · rfl
  · intro msg
    show (toggleCore viewerId channelId st).1 ≠ _
    unfold toggleCore
    split <;> simp

end YoutubeBackend
